import Mathlib

/-
Shallow embedding of the `next-fast` scaffolding tool (src/main.rs).

The program is a straight-line orchestrator: it parses a CLI configuration,
probes for the `bun` tool, then runs a fixed pipeline of external process
invocations plus one fixed-content file write, aborting on the first failure.

We model the outside world by an `Env` record that fixes, for each external
invocation the program may attempt, whether the spawn succeeds and with which
exit status the child exits, plus whether the directory change and the file
write succeed.  Running the program against an `Env` yields a trace of
observable events (process invocations attempted, the working-directory
change, the successful file write) together with the way the process ends.
-/

namespace NextFast

/-- Result of attempting to spawn an external process: either the spawn
itself fails (`std::process::Command` returns `Err`, e.g. executable not
found), or the child runs and exits with the given status code. -/
inductive SpawnResult where
  | failed : SpawnResult
  | exited : Nat → SpawnResult
deriving DecidableEq, Repr

/-- How one of the Rust helper functions relinquishes control: it returns
`Ok(())`, it calls `std::process::exit(1)` directly, or it returns an `Err`
that the `?` operator propagates up to `main`. -/
inductive StepExit where
  | ok : StepExit
  | exit1 : StepExit
  | err : StepExit
deriving DecidableEq, Repr

/-- How the whole process ends: `main` returns `Ok(())` (exit code 0), some
step called `std::process::exit(1)`, or `main` returned an `Err` (the Rust
runtime then prints the error and exits with code 1). -/
inductive Outcome where
  | success : Outcome
  | exitFail : Outcome
  | errReturn : Outcome
deriving DecidableEq, Repr

/-- The exit code of the operating-system process for each outcome.  A `main`
returning `Err` exits with code 1, exactly like an explicit `exit(1)`. -/
def exitCode : Outcome → Nat
  | .success => 0
  | .exitFail => 1
  | .errReturn => 1

/-- Lift a step's exit into the whole-process outcome when the step is the
one that ends the run (used by `main_run` on the first non-`ok` step). -/
def outcomeOf : StepExit → Outcome
  | .ok => .success
  | .exit1 => .exitFail
  | .err => .errReturn

/-- The `Cli` configuration record parsed by clap (struct `Cli` in
src/main.rs): a project name, four boolean toggles defaulting to true, and a
skip-install toggle defaulting to false. -/
structure Cli where
  project_name : String
  typescript : Bool
  tailwind : Bool
  eslint : Bool
  app : Bool
  skip_install : Bool
deriving DecidableEq, Repr

/-- The environment: the outcome of each external interaction the program may
attempt, in program order.  `probe` is the `bun --version` availability check
(run with `.output()`); the five others are the pipeline invocations (run
with `.status()`); `chdirOk` is whether `env::set_current_dir` succeeds and
`writeOk` whether the `tokio::fs::write` of the schema file succeeds. -/
structure Env where
  probe : SpawnResult
  scaffold : SpawnResult
  addDeps : SpawnResult
  prismaInit : SpawnResult
  chdirOk : Bool
  writeOk : Bool
  generate : SpawnResult
  shadcn : SpawnResult
deriving DecidableEq, Repr

/-- Observable events of a run: an attempted external invocation (command
name and argument list), a successful change of the process working
directory, and a successful file write (path and content). -/
inductive Event where
  | invoke : String → List String → Event
  | chdir : String → Event
  | fsWrite : String → String → Event
deriving DecidableEq, Repr

/-- Interpretation of a `.status()?` call followed by the `if
!status.success() { eprintln!(...); std::process::exit(1); }` check used by
every pipeline step: a spawn failure propagates as `Err` via `?`, exit
status 0 is success, and any non-zero exit status triggers `exit(1)`. -/
def stepOf : SpawnResult → StepExit
  | .failed => .err
  | .exited 0 => .ok
  | .exited (_ + 1) => .exit1

/-- The argument list built for `bun create next-app` by
`create_nextjs_with_bun` (src/main.rs lines 83-119): the project name, then
one switch per boolean toggle, and `--skip-install` only when that toggle is
set. -/
def nextjs_args (cli : Cli) : List String :=
  ["create", "next-app", cli.project_name]
    ++ (if cli.typescript then ["--typescript"] else ["--javascript"])
    ++ (if cli.tailwind then ["--tailwind"] else ["--no-tailwind"])
    ++ (if cli.eslint then ["--eslint"] else ["--no-eslint"])
    ++ (if cli.app then ["--app"] else ["--no-app"])
    ++ (if cli.skip_install then ["--skip-install"] else [])

/-- The literal schema text written by `create_basic_schema` (src/main.rs
lines 190-221), byte for byte (braces appear as escapes). -/
def schema_content : String :=
  "// This is your Prisma schema file,\n// learn more about it in the docs: https://pris.ly/d/prisma-schema\n\ngenerator client \x7b\n  provider = \"prisma-client-js\"\n\x7d\n\ndatasource db \x7b\n  provider = \"sqlite\"\n  url      = env(\"DATABASE_URL\")\n\x7d\n\nmodel User \x7b\n  id        Int      @id @default(autoincrement())\n  email     String   @unique\n  name      String?\n  createdAt DateTime @default(now())\n  updatedAt DateTime @updatedAt\n  posts     Post[]\n\x7d\n\nmodel Post \x7b\n  id        Int      @id @default(autoincrement())\n  title     String\n  content   String?\n  published Boolean  @default(false)\n  createdAt DateTime @default(now())\n  updatedAt DateTime @updatedAt\n  author    User     @relation(fields: [authorId], references: [id])\n  authorId  Int\n\x7d\n"

/-- The `bun --version` availability-probe invocation. -/
def probeInv : Event := Event.invoke "bun" ["--version"]

/-- The `bun create next-app ...` scaffolding invocation for a given
configuration. -/
def scafInv (cli : Cli) : Event := Event.invoke "bun" (nextjs_args cli)

/-- The `bun add prisma @prisma/client` dependency-add invocation. -/
def addInv : Event := Event.invoke "bun" ["add", "prisma", "@prisma/client"]

/-- The `bunx prisma init --datasource-provider sqlite` schema-toolkit
initialization invocation. -/
def schemaInitInv : Event :=
  Event.invoke "bunx" ["prisma", "init", "--datasource-provider", "sqlite"]

/-- The `bunx prisma generate` client-regenerate invocation. -/
def genInv : Event := Event.invoke "bunx" ["prisma", "generate"]

/-- The `bunx shadcn@latest init` UI-component-initializer invocation. -/
def shadcnInv : Event := Event.invoke "bunx" ["shadcn@latest", "init"]

/-- The successful write of the fixed schema text to its fixed path. -/
def writeEv : Event := Event.fsWrite "prisma/schema.prisma" schema_content

/-- `check_bun_installed` (src/main.rs lines 60-78): runs `bun --version`
with `.output()` and matches only on whether the spawn succeeded.  A spawn
failure prints a message and calls `exit(1)`; a spawned probe is accepted as
success regardless of its exit status. -/
def check_bun_installed (env : Env) : List Event × StepExit :=
  ([probeInv],
    match env.probe with
    | .failed => .exit1
    | .exited _ => .ok)

/-- `create_nextjs_with_bun` (src/main.rs lines 80-134): one invocation of
`bun` with the built argument list, then the standard status check. -/
def create_nextjs_with_bun (cli : Cli) (env : Env) : List Event × StepExit :=
  ([scafInv cli], stepOf env.scaffold)

/-- `create_basic_schema` (src/main.rs lines 189-226): writes the fixed
`schema_content` to the fixed relative path `prisma/schema.prisma`; a
filesystem error propagates as `Err` via `?` (no event is recorded since
nothing was written). -/
def create_basic_schema (env : Env) : List Event × StepExit :=
  if env.writeOk then
    ([writeEv], .ok)
  else
    ([], .err)

/-- `initialize_prisma` (src/main.rs lines 136-187): change into the project
directory (an `env::set_current_dir` failure propagates as `Err` before any
further invocation), then `bun add`, `bunx prisma init`, the schema write,
and `bunx prisma generate`, each aborting the sequence on failure. -/
def initialize_prisma (project_name : String) (env : Env) : List Event × StepExit :=
  if env.chdirOk then
    match stepOf env.addDeps with
    | .ok =>
      match stepOf env.prismaInit with
      | .ok =>
        match create_basic_schema env with
        | (we, .ok) =>
          ([Event.chdir project_name, addInv, schemaInitInv] ++ we ++ [genInv],
            stepOf env.generate)
        | (we, r) => ([Event.chdir project_name, addInv, schemaInitInv] ++ we, r)
      | r => ([Event.chdir project_name, addInv, schemaInitInv], r)
    | r => ([Event.chdir project_name, addInv], r)
  else
    ([], .err)

/-- `initialize_shadcn` (src/main.rs lines 228-247): one invocation of
`bunx shadcn@latest init`, then the standard status check. -/
def initialize_shadcn (env : Env) : List Event × StepExit :=
  ([shadcnInv], stepOf env.shadcn)

/-- `main` (src/main.rs lines 36-58): the four steps in order, each `?`-ed;
the whole-process outcome is the first step's non-`ok` exit, or success when
all steps succeed.  The returned list is the trace of observable events. -/
def main_run (cli : Cli) (env : Env) : List Event × Outcome :=
  match check_bun_installed env with
  | (e1, StepExit.ok) =>
    match create_nextjs_with_bun cli env with
    | (e2, StepExit.ok) =>
      match initialize_prisma cli.project_name env with
      | (e3, StepExit.ok) =>
        match initialize_shadcn env with
        | (e4, StepExit.ok) => (e1 ++ (e2 ++ (e3 ++ e4)), Outcome.success)
        | (e4, r) => (e1 ++ (e2 ++ (e3 ++ e4)), outcomeOf r)
      | (e3, r) => (e1 ++ (e2 ++ e3), outcomeOf r)
    | (e2, r) => (e1 ++ e2, outcomeOf r)
  | (e1, r) => (e1, outcomeOf r)

/-- Whether an event is a working-directory change. -/
def isChdir : Event → Bool
  | .chdir _ => true
  | _ => false

/-- Number of working-directory changes recorded in a trace. -/
def chdirCount (tr : List Event) : Nat :=
  tr.countP isChdir

/-- The complete event trace of a fully successful run. -/
def fullTrace (cli : Cli) : List Event :=
  [probeInv, scafInv cli, Event.chdir cli.project_name, addInv,
    schemaInitInv, writeEv, genInv, shadcnInv]

/-- Helper: a non-zero exit status is mapped to the `exit(1)` step exit. -/
lemma stepOf_pos {c : Nat} (hc : c ≠ 0) : stepOf (.exited c) = .exit1 := by
  cases c with
  | zero => exact absurd rfl hc
  | succ n => rfl

/-- Helper: any step exit other than `ok` ends the process with exit code 1. -/
lemma exitCode_outcomeOf {r : StepExit} (h : r ≠ .ok) :
    exitCode (outcomeOf r) = 1 := by
  cases r with
  | ok => exact absurd rfl h
  | exit1 => rfl
  | err => rfl

/-- Run characterization: probe spawn failure stops the run at once. -/
lemma run_probe_failed (cli : Cli) (env : Env) (h : env.probe = .failed) :
    main_run cli env = ([probeInv], Outcome.exitFail) := by
  simp [main_run, check_bun_installed, h, outcomeOf]

/-- Run characterization: with the probe spawned, a failing scaffold step
stops the run right after the scaffold invocation. -/
lemma run_scaffold_stop (cli : Cli) (env : Env) (p : Nat)
    (hp : env.probe = .exited p) (hne : stepOf env.scaffold ≠ .ok) :
    main_run cli env
      = ([probeInv, scafInv cli], outcomeOf (stepOf env.scaffold)) := by
  cases hr : stepOf env.scaffold with
  | ok => exact absurd hr hne
  | exit1 =>
      simp [main_run, check_bun_installed, create_nextjs_with_bun, hp, hr]
  | err =>
      simp [main_run, check_bun_installed, create_nextjs_with_bun, hp, hr]

/-- Run characterization: a failing working-directory change stops the run
before the dependency-add invocation, via the error-return path. -/
lemma run_chdir_stop (cli : Cli) (env : Env) (p : Nat)
    (hp : env.probe = .exited p) (hsc : stepOf env.scaffold = .ok)
    (hcd : env.chdirOk = false) :
    main_run cli env = ([probeInv, scafInv cli], Outcome.errReturn) := by
  simp [main_run, check_bun_installed, create_nextjs_with_bun,
    initialize_prisma, hp, hsc, hcd, outcomeOf]

/-- Run characterization: a failing dependency-add step stops the run right
after its invocation. -/
lemma run_addDeps_stop (cli : Cli) (env : Env) (p : Nat)
    (hp : env.probe = .exited p) (hsc : stepOf env.scaffold = .ok)
    (hcd : env.chdirOk = true) (hne : stepOf env.addDeps ≠ .ok) :
    main_run cli env
      = ([probeInv, scafInv cli, Event.chdir cli.project_name, addInv],
          outcomeOf (stepOf env.addDeps)) := by
  cases hr : stepOf env.addDeps with
  | ok => exact absurd hr hne
  | exit1 =>
      simp [main_run, check_bun_installed, create_nextjs_with_bun,
        initialize_prisma, hp, hsc, hcd, hr]
  | err =>
      simp [main_run, check_bun_installed, create_nextjs_with_bun,
        initialize_prisma, hp, hsc, hcd, hr]

/-- Run characterization: a failing schema-toolkit initialization stops the
run right after its invocation. -/
lemma run_prismaInit_stop (cli : Cli) (env : Env) (p : Nat)
    (hp : env.probe = .exited p) (hsc : stepOf env.scaffold = .ok)
    (hcd : env.chdirOk = true) (had : stepOf env.addDeps = .ok)
    (hne : stepOf env.prismaInit ≠ .ok) :
    main_run cli env
      = ([probeInv, scafInv cli, Event.chdir cli.project_name, addInv,
          schemaInitInv], outcomeOf (stepOf env.prismaInit)) := by
  cases hr : stepOf env.prismaInit with
  | ok => exact absurd hr hne
  | exit1 =>
      simp [main_run, check_bun_installed, create_nextjs_with_bun,
        initialize_prisma, hp, hsc, hcd, had, hr]
  | err =>
      simp [main_run, check_bun_installed, create_nextjs_with_bun,
        initialize_prisma, hp, hsc, hcd, had, hr]

/-- Run characterization: a failing schema-file write stops the run before
the client-regenerate invocation, via the error-return path. -/
lemma run_write_stop (cli : Cli) (env : Env) (p : Nat)
    (hp : env.probe = .exited p) (hsc : stepOf env.scaffold = .ok)
    (hcd : env.chdirOk = true) (had : stepOf env.addDeps = .ok)
    (hpi : stepOf env.prismaInit = .ok) (hw : env.writeOk = false) :
    main_run cli env
      = ([probeInv, scafInv cli, Event.chdir cli.project_name, addInv,
          schemaInitInv], Outcome.errReturn) := by
  simp [main_run, check_bun_installed, create_nextjs_with_bun,
    initialize_prisma, create_basic_schema, hp, hsc, hcd, had, hpi, hw,
    outcomeOf]

/-- Run characterization: a failing client-regenerate step stops the run
right after its invocation, which follows the schema write. -/
lemma run_generate_stop (cli : Cli) (env : Env) (p : Nat)
    (hp : env.probe = .exited p) (hsc : stepOf env.scaffold = .ok)
    (hcd : env.chdirOk = true) (had : stepOf env.addDeps = .ok)
    (hpi : stepOf env.prismaInit = .ok) (hw : env.writeOk = true)
    (hne : stepOf env.generate ≠ .ok) :
    main_run cli env
      = ([probeInv, scafInv cli, Event.chdir cli.project_name, addInv,
          schemaInitInv, writeEv, genInv],
          outcomeOf (stepOf env.generate)) := by
  cases hr : stepOf env.generate with
  | ok => exact absurd hr hne
  | exit1 =>
      simp [main_run, check_bun_installed, create_nextjs_with_bun,
        initialize_prisma, create_basic_schema, hp, hsc, hcd, had, hpi, hw, hr]
  | err =>
      simp [main_run, check_bun_installed, create_nextjs_with_bun,
        initialize_prisma, create_basic_schema, hp, hsc, hcd, had, hpi, hw, hr]

/-- Run characterization: a failing UI-component-initializer step ends the
run after the complete trace, with a failure outcome. -/
lemma run_shadcn_stop (cli : Cli) (env : Env) (p : Nat)
    (hp : env.probe = .exited p) (hsc : stepOf env.scaffold = .ok)
    (hcd : env.chdirOk = true) (had : stepOf env.addDeps = .ok)
    (hpi : stepOf env.prismaInit = .ok) (hw : env.writeOk = true)
    (hg : stepOf env.generate = .ok) (hne : stepOf env.shadcn ≠ .ok) :
    main_run cli env = (fullTrace cli, outcomeOf (stepOf env.shadcn)) := by
  cases hr : stepOf env.shadcn with
  | ok => exact absurd hr hne
  | exit1 =>
      simp [main_run, check_bun_installed, create_nextjs_with_bun,
        initialize_prisma, create_basic_schema, initialize_shadcn, fullTrace,
        hp, hsc, hcd, had, hpi, hw, hg, hr]
  | err =>
      simp [main_run, check_bun_installed, create_nextjs_with_bun,
        initialize_prisma, create_basic_schema, initialize_shadcn, fullTrace,
        hp, hsc, hcd, had, hpi, hw, hg, hr]

/-- Run characterization: when every step succeeds the run produces the full
trace and the success outcome. -/
lemma run_all_ok (cli : Cli) (env : Env) (p : Nat)
    (hp : env.probe = .exited p) (hsc : stepOf env.scaffold = .ok)
    (hcd : env.chdirOk = true) (had : stepOf env.addDeps = .ok)
    (hpi : stepOf env.prismaInit = .ok) (hw : env.writeOk = true)
    (hg : stepOf env.generate = .ok) (hsh : stepOf env.shadcn = .ok) :
    main_run cli env = (fullTrace cli, Outcome.success) := by
  simp [main_run, check_bun_installed, create_nextjs_with_bun,
    initialize_prisma, create_basic_schema, initialize_shadcn, fullTrace,
    hp, hsc, hcd, had, hpi, hw, hg, hsh]

/-- Helper: a step exit other than `ok` never maps to the success outcome. -/
lemma outcomeOf_ne_success {r : StepExit} (h : r ≠ .ok) :
    outcomeOf r ≠ Outcome.success := by
  cases r with
  | ok => exact absurd rfl h
  | exit1 => simp [outcomeOf]
  | err => simp [outcomeOf]

/-- Every run's trace is a prefix of the full successful trace, of length at
most 2 or at least 4 (the directory change, when present, is immediately
followed by the dependency-add invocation), and a successful outcome forces
the complete trace. -/
lemma trace_shape (cli : Cli) (env : Env) :
    ∃ k, (k ≤ 2 ∨ 4 ≤ k)
      ∧ (env.probe = SpawnResult.failed ∨ 2 ≤ k)
      ∧ (main_run cli env).1 = (fullTrace cli).take k
      ∧ ((main_run cli env).2 = Outcome.success →
          (main_run cli env).1 = fullTrace cli) := by
  cases hp : env.probe with
  | failed =>
      refine ⟨1, Or.inl (by norm_num), Or.inl rfl, ?_, ?_⟩
      · rw [run_probe_failed cli env hp]; rfl
      · intro hsucc
        rw [run_probe_failed cli env hp] at hsucc
        exact absurd hsucc (by simp)
  | exited p =>
      by_cases hsc : stepOf env.scaffold = .ok
      · cases hcd : env.chdirOk with
        | false =>
            refine ⟨2, Or.inl (by norm_num), Or.inr (by norm_num), ?_, ?_⟩
            · rw [run_chdir_stop cli env p hp hsc hcd]; rfl
            · intro hsucc
              rw [run_chdir_stop cli env p hp hsc hcd] at hsucc
              exact absurd hsucc (by simp)
        | true =>
            by_cases had : stepOf env.addDeps = .ok
            · by_cases hpi : stepOf env.prismaInit = .ok
              · cases hw : env.writeOk with
                | false =>
                    refine ⟨5, Or.inr (by norm_num), Or.inr (by norm_num), ?_, ?_⟩
                    · rw [run_write_stop cli env p hp hsc hcd had hpi hw]; rfl
                    · intro hsucc
                      rw [run_write_stop cli env p hp hsc hcd had hpi hw]
                        at hsucc
                      exact absurd hsucc (by simp)
                | true =>
                    by_cases hg : stepOf env.generate = .ok
                    · by_cases hsh : stepOf env.shadcn = .ok
                      · refine ⟨8, Or.inr (by norm_num), Or.inr (by norm_num), ?_, fun _ => ?_⟩
                        · rw [run_all_ok cli env p hp hsc hcd had hpi hw hg hsh]; rfl
                        · rw [run_all_ok cli env p hp hsc hcd had hpi hw hg hsh]
                      · refine ⟨8, Or.inr (by norm_num), Or.inr (by norm_num), ?_, ?_⟩
                        · rw [run_shadcn_stop cli env p hp hsc hcd had hpi hw
                            hg hsh]; rfl
                        · intro hsucc
                          rw [run_shadcn_stop cli env p hp hsc hcd had hpi hw
                            hg hsh] at hsucc
                          exact absurd hsucc (outcomeOf_ne_success hsh)
                    · refine ⟨7, Or.inr (by norm_num), Or.inr (by norm_num), ?_, ?_⟩
                      · rw [run_generate_stop cli env p hp hsc hcd had hpi hw hg]
                        rfl
                      · intro hsucc
                        rw [run_generate_stop cli env p hp hsc hcd had hpi hw hg]
                          at hsucc
                        exact absurd hsucc (outcomeOf_ne_success hg)
              · refine ⟨5, Or.inr (by norm_num), Or.inr (by norm_num), ?_, ?_⟩
                · rw [run_prismaInit_stop cli env p hp hsc hcd had hpi]; rfl
                · intro hsucc
                  rw [run_prismaInit_stop cli env p hp hsc hcd had hpi] at hsucc
                  exact absurd hsucc (outcomeOf_ne_success hpi)
            · refine ⟨4, Or.inr (by norm_num), Or.inr (by norm_num), ?_, ?_⟩
              · rw [run_addDeps_stop cli env p hp hsc hcd had]; rfl
              · intro hsucc
                rw [run_addDeps_stop cli env p hp hsc hcd had] at hsucc
                exact absurd hsucc (outcomeOf_ne_success had)
      · refine ⟨2, Or.inl (by norm_num), Or.inr (by norm_num), ?_, ?_⟩
        · rw [run_scaffold_stop cli env p hp hsc]; rfl
        · intro hsucc
          rw [run_scaffold_stop cli env p hp hsc] at hsucc
          exact absurd hsucc (outcomeOf_ne_success hsc)

/-- Helper: whenever the probe was launched at all, the scaffolding
invocation appears in the run's trace. -/
lemma scaf_mem (cli : Cli) (env : Env) (p : Nat)
    (hp : env.probe = SpawnResult.exited p) :
    scafInv cli ∈ (main_run cli env).1 := by
  obtain ⟨k, -, hk2, htr, -⟩ := trace_shape cli env
  rcases hk2 with hf | h2
  · rw [hp] at hf
    exact absurd hf (by simp)
  · obtain ⟨m, hm⟩ := Nat.exists_eq_add_of_le h2
    rw [htr, hm, Nat.add_comm 2 m]
    show scafInv cli ∈ probeInv :: scafInv cli ::
      List.take m [Event.chdir cli.project_name, addInv, schemaInitInv,
        writeEv, genInv, shadcnInv]
    simp

/-- Helper: no working-directory change occurs among the pipeline events
that follow the dependency-add invocation. -/
lemma chdirCount_tail (m : Nat) :
    chdirCount (List.take m [schemaInitInv, writeEv, genInv, shadcnInv])
      = 0 := by
  rw [chdirCount, List.countP_eq_zero]
  intro e he
  have hmem := List.take_subset m _ he
  simp only [List.mem_cons, List.not_mem_nil, or_false] at hmem
  rcases hmem with h | h | h | h <;> subst h <;>
    simp [isChdir, schemaInitInv, writeEv, genInv, shadcnInv]

set_option maxHeartbeats 1600000 in
/-- Claim C1: for every combination of the four paired boolean toggles
(typescript, tailwind, eslint, app router), the argument list built for the
scaffolding invocation contains exactly one switch of each mutually
exclusive pair, chosen by the toggle's truth value; in particular, with the
typescript toggle false the list contains `--javascript` and not
`--typescript`.  (Stated for project names that are not themselves one of
the eight switch strings.) -/
theorem scaffold_switch_pairs (cli : Cli)
    (h : cli.project_name ∉ (["--typescript", "--javascript", "--tailwind", "--no-tailwind",
      "--eslint", "--no-eslint", "--app", "--no-app"] : List String)) :
    ((nextjs_args cli).count "--typescript" = if cli.typescript then 1 else 0)
  ∧ ((nextjs_args cli).count "--javascript" = if cli.typescript then 0 else 1)
  ∧ ((nextjs_args cli).count "--tailwind" = if cli.tailwind then 1 else 0)
  ∧ ((nextjs_args cli).count "--no-tailwind" = if cli.tailwind then 0 else 1)
  ∧ ((nextjs_args cli).count "--eslint" = if cli.eslint then 1 else 0)
  ∧ ((nextjs_args cli).count "--no-eslint" = if cli.eslint then 0 else 1)
  ∧ ((nextjs_args cli).count "--app" = if cli.app then 1 else 0)
  ∧ ((nextjs_args cli).count "--no-app" = if cli.app then 0 else 1) := by
  rcases cli with ⟨name, ts, tw, es, ap, sk⟩
  simp only [List.mem_cons, List.not_mem_nil, or_false, not_or] at h
  obtain ⟨h1, h2, h3, h4, h5, h6, h7, h8⟩ := h
  have g1 : ("--typescript" : String) ≠ name := fun e => h1 e.symm
  have g2 : ("--javascript" : String) ≠ name := fun e => h2 e.symm
  have g3 : ("--tailwind" : String) ≠ name := fun e => h3 e.symm
  have g4 : ("--no-tailwind" : String) ≠ name := fun e => h4 e.symm
  have g5 : ("--eslint" : String) ≠ name := fun e => h5 e.symm
  have g6 : ("--no-eslint" : String) ≠ name := fun e => h6 e.symm
  have g7 : ("--app" : String) ≠ name := fun e => h7 e.symm
  have g8 : ("--no-app" : String) ≠ name := fun e => h8 e.symm
  rcases ts <;> rcases tw <;> rcases es <;> rcases ap <;> rcases sk <;>
    simp [nextjs_args, List.count_cons, List.count_nil, beq_iff_eq,
      g1, g2, g3, g4, g5, g6, g7, g8]

/-- Witness for C1 at a concrete configuration with the typescript toggle
disabled: the list contains `--javascript` once and `--typescript` not at
all. -/
theorem scaffold_switch_pairs_witness :
    ((nextjs_args ⟨"myapp", false, true, true, true, false⟩).count "--typescript" = 0)
  ∧ ((nextjs_args ⟨"myapp", false, true, true, true, false⟩).count "--javascript" = 1) := by
  have h := scaffold_switch_pairs ⟨"myapp", false, true, true, true, false⟩ (by decide)
  exact ⟨by simpa using h.1, by simpa using h.2.1⟩

/-- Claim C10: the skip-install toggle is not translated as a mutually
exclusive switch pair: `--skip-install` is in the scaffolding argument list
iff the toggle is true, and with the toggle false nothing is appended for
it, so the list has 7 elements instead of 8. -/
theorem skip_install_switch (cli : Cli) :
    (cli.project_name ≠ "--skip-install" →
      (("--skip-install" ∈ nextjs_args cli) ↔ cli.skip_install = true))
  ∧ (nextjs_args cli).length = (if cli.skip_install then 8 else 7) := by
  rcases cli with ⟨name, ts, tw, es, ap, sk⟩
  constructor
  · intro h
    have g : ("--skip-install" : String) ≠ name := fun e => h e.symm
    rcases ts <;> rcases tw <;> rcases es <;> rcases ap <;> rcases sk <;>
      simp_all [nextjs_args, g]
  · rcases ts <;> rcases tw <;> rcases es <;> rcases ap <;> rcases sk <;>
      simp [nextjs_args]

/-- Witness for C10 at a concrete configuration with the toggle false: no
skip-install switch and a 7-element argument list. -/
theorem skip_install_switch_witness :
    ("--skip-install" ∉ nextjs_args ⟨"myapp", true, true, true, true, false⟩)
  ∧ (nextjs_args ⟨"myapp", true, true, true, true, false⟩).length = 7 := by
  have h := skip_install_switch ⟨"myapp", true, true, true, true, false⟩
  constructor
  · intro hm
    have hfalse := (h.1 (by decide)).mp hm
    simp at hfalse
  · simpa using h.2

/-- Claim C4: if the probe for the required external tool cannot be
launched, the run ends with exit code 1 and the trace contains only the
probe invocation — no other external invocation occurs. -/
theorem bun_check_gates_pipeline (cli : Cli) (env : Env)
    (h : env.probe = SpawnResult.failed) :
    main_run cli env = ([probeInv], Outcome.exitFail)
  ∧ exitCode (main_run cli env).2 = 1 := by
  refine ⟨run_probe_failed cli env h, ?_⟩
  rw [run_probe_failed cli env h]
  rfl

/-- Witness for C4 at a concrete environment whose probe spawn fails. -/
theorem bun_check_gates_pipeline_witness :
    main_run ⟨"myapp", true, true, true, true, false⟩
        ⟨SpawnResult.failed, SpawnResult.exited 0, SpawnResult.exited 0,
          SpawnResult.exited 0, true, true, SpawnResult.exited 0,
          SpawnResult.exited 0⟩
      = ([probeInv], Outcome.exitFail) :=
  (bun_check_gates_pipeline _ _ rfl).1

/-- Claim C9: the availability check takes its failure path (the `exit(1)`
that reports the tool missing) exactly when the probe spawn fails; whenever
the probe is launched, whatever its exit status, the check reports success
and the run goes on to the scaffolding invocation. -/
theorem probe_launch_only_check (cli : Cli) (env : Env) :
    ((check_bun_installed env).2 = StepExit.exit1 ↔ env.probe = SpawnResult.failed)
  ∧ (∀ c, env.probe = SpawnResult.exited c →
      (check_bun_installed env).2 = StepExit.ok
      ∧ scafInv cli ∈ (main_run cli env).1) := by
  constructor
  · cases hpr : env.probe <;> simp [check_bun_installed, hpr]
  · intro c hc
    exact ⟨by simp [check_bun_installed, hc], scaf_mem cli env c hc⟩

/-- Witness for C9 at a concrete environment whose probe exits with the
non-zero status 3: the check still reports success and the scaffolding
invocation still happens. -/
theorem probe_launch_only_check_witness :
    (check_bun_installed
        ⟨SpawnResult.exited 3, SpawnResult.exited 0, SpawnResult.exited 0,
          SpawnResult.exited 0, true, true, SpawnResult.exited 0,
          SpawnResult.exited 0⟩).2 = StepExit.ok
  ∧ scafInv ⟨"myapp", true, true, true, true, false⟩
      ∈ (main_run ⟨"myapp", true, true, true, true, false⟩
          ⟨SpawnResult.exited 3, SpawnResult.exited 0, SpawnResult.exited 0,
            SpawnResult.exited 0, true, true, SpawnResult.exited 0,
            SpawnResult.exited 0⟩).1 :=
  (probe_launch_only_check _ _).2 3 rfl

/-- Claim C2: for each of the five pipeline invocations, a non-zero exit
status ends the run with exit code 1 at exactly that point: the trace stops
at the failing invocation, so no later pipeline step executes; in
particular a non-zero dependency-add status means the UI-component
initializer (and the client regenerate) are never invoked. -/
theorem pipeline_fail_fast (cli : Cli) (env : Env) (p c : Nat) (hc : c ≠ 0)
    (hp : env.probe = SpawnResult.exited p) :
    (env.scaffold = SpawnResult.exited c →
        main_run cli env = ([probeInv, scafInv cli], Outcome.exitFail))
  ∧ (stepOf env.scaffold = StepExit.ok → env.chdirOk = true →
      env.addDeps = SpawnResult.exited c →
        main_run cli env
          = ([probeInv, scafInv cli, Event.chdir cli.project_name, addInv],
              Outcome.exitFail)
        ∧ shadcnInv ∉ (main_run cli env).1
        ∧ genInv ∉ (main_run cli env).1)
  ∧ (stepOf env.scaffold = StepExit.ok → env.chdirOk = true →
      stepOf env.addDeps = StepExit.ok →
      env.prismaInit = SpawnResult.exited c →
        main_run cli env
          = ([probeInv, scafInv cli, Event.chdir cli.project_name, addInv,
              schemaInitInv], Outcome.exitFail))
  ∧ (stepOf env.scaffold = StepExit.ok → env.chdirOk = true →
      stepOf env.addDeps = StepExit.ok → stepOf env.prismaInit = StepExit.ok →
      env.writeOk = true → env.generate = SpawnResult.exited c →
        main_run cli env
          = ([probeInv, scafInv cli, Event.chdir cli.project_name, addInv,
              schemaInitInv, writeEv, genInv], Outcome.exitFail))
  ∧ (stepOf env.scaffold = StepExit.ok → env.chdirOk = true →
      stepOf env.addDeps = StepExit.ok → stepOf env.prismaInit = StepExit.ok →
      env.writeOk = true → stepOf env.generate = StepExit.ok →
      env.shadcn = SpawnResult.exited c →
        main_run cli env = (fullTrace cli, Outcome.exitFail))
  ∧ exitCode Outcome.exitFail = 1 := by
  refine ⟨?_, ?_, ?_, ?_, ?_, rfl⟩
  · intro hs
    have hne : stepOf env.scaffold ≠ StepExit.ok := by
      rw [hs, stepOf_pos hc]; simp
    have h := run_scaffold_stop cli env p hp hne
    rw [hs, stepOf_pos hc] at h
    exact h
  · intro hsc hcd had
    have hne : stepOf env.addDeps ≠ StepExit.ok := by
      rw [had, stepOf_pos hc]; simp
    have h := run_addDeps_stop cli env p hp hsc hcd hne
    rw [had, stepOf_pos hc] at h
    refine ⟨h, ?_, ?_⟩
    · rw [h]
      simp [probeInv, scafInv, addInv, shadcnInv]
    · rw [h]
      simp [probeInv, scafInv, addInv, genInv]
  · intro hsc hcd had hpi
    have hne : stepOf env.prismaInit ≠ StepExit.ok := by
      rw [hpi, stepOf_pos hc]; simp
    have h := run_prismaInit_stop cli env p hp hsc hcd had hne
    rw [hpi, stepOf_pos hc] at h
    exact h
  · intro hsc hcd had hpi hw hg
    have hne : stepOf env.generate ≠ StepExit.ok := by
      rw [hg, stepOf_pos hc]; simp
    have h := run_generate_stop cli env p hp hsc hcd had hpi hw hne
    rw [hg, stepOf_pos hc] at h
    exact h
  · intro hsc hcd had hpi hw hg hsh
    have hne : stepOf env.shadcn ≠ StepExit.ok := by
      rw [hsh, stepOf_pos hc]; simp
    have h := run_shadcn_stop cli env p hp hsc hcd had hpi hw hg hne
    rw [hsh, stepOf_pos hc] at h
    exact h

/-- Witness for C2 at a concrete environment whose dependency-add step exits
with status 2: the run stops there with the failure outcome and the
UI-component initializer is never invoked. -/
theorem pipeline_fail_fast_witness :
    main_run ⟨"myapp", true, true, true, true, false⟩
        ⟨SpawnResult.exited 0, SpawnResult.exited 0, SpawnResult.exited 2,
          SpawnResult.exited 0, true, true, SpawnResult.exited 0,
          SpawnResult.exited 0⟩
      = ([probeInv, scafInv ⟨"myapp", true, true, true, true, false⟩,
          Event.chdir "myapp", addInv], Outcome.exitFail)
  ∧ shadcnInv ∉ (main_run ⟨"myapp", true, true, true, true, false⟩
        ⟨SpawnResult.exited 0, SpawnResult.exited 0, SpawnResult.exited 2,
          SpawnResult.exited 0, true, true, SpawnResult.exited 0,
          SpawnResult.exited 0⟩).1 := by
  have h := (pipeline_fail_fast ⟨"myapp", true, true, true, true, false⟩
    ⟨SpawnResult.exited 0, SpawnResult.exited 0, SpawnResult.exited 2,
      SpawnResult.exited 0, true, true, SpawnResult.exited 0,
      SpawnResult.exited 0⟩ 0 2 (by decide) rfl).2.1 rfl rfl rfl
  exact ⟨h.1, h.2.1⟩

/-- Claim C5: every schema write that occurs in any run, for any
configuration record, writes the constant text `schema_content` (the fixed
document with the `User` and `Post` record types) to the fixed relative path
`prisma/schema.prisma`; neither depends on the project name or any boolean
toggle. -/
theorem schema_write_fixed_content (cli : Cli) (env : Env) (p s : String)
    (h : Event.fsWrite p s ∈ (main_run cli env).1) :
    p = "prisma/schema.prisma" ∧ s = schema_content := by
  obtain ⟨k, -, -, htr, -⟩ := trace_shape cli env
  rw [htr] at h
  have h2 : Event.fsWrite p s ∈ fullTrace cli := List.take_subset _ _ h
  simp only [fullTrace, probeInv, scafInv, addInv, schemaInitInv, writeEv,
    genInv, shadcnInv, List.mem_cons, List.not_mem_nil, or_false] at h2
  rcases h2 with h2 | h2 | h2 | h2 | h2 | h2 | h2 | h2 <;> simp_all

/-- Witness for C5: in the all-success run the schema write occurs, and the
claim's conclusion holds for it. -/
theorem schema_write_fixed_content_witness :
    "prisma/schema.prisma" = "prisma/schema.prisma"
  ∧ schema_content = schema_content := by
  refine schema_write_fixed_content ⟨"myapp", true, true, true, true, false⟩
    ⟨SpawnResult.exited 0, SpawnResult.exited 0, SpawnResult.exited 0,
      SpawnResult.exited 0, true, true, SpawnResult.exited 0,
      SpawnResult.exited 0⟩ "prisma/schema.prisma" schema_content ?_
  rw [run_all_ok ⟨"myapp", true, true, true, true, false⟩
    ⟨SpawnResult.exited 0, SpawnResult.exited 0, SpawnResult.exited 0,
      SpawnResult.exited 0, true, true, SpawnResult.exited 0,
      SpawnResult.exited 0⟩ 0 rfl rfl rfl rfl rfl rfl rfl rfl]
  simp [fullTrace, writeEv]

/-- Claim C6: on every successful run the trace is exactly the fixed total
order — probe, scaffold, directory change, dependency add, schema-toolkit
initialization, the fixed-content schema write, client regenerate, then the
UI-component initializer.  In particular the schema overwrite is strictly
after the schema-init invocation and strictly before the client-regenerate
invocation, which in turn precedes the UI-component initializer. -/
theorem pipeline_step_order (cli : Cli) (env : Env)
    (h : (main_run cli env).2 = Outcome.success) :
    (main_run cli env).1
      = [probeInv, scafInv cli, Event.chdir cli.project_name, addInv,
          schemaInitInv, writeEv, genInv, shadcnInv] := by
  obtain ⟨k, -, -, -, hs⟩ := trace_shape cli env
  exact hs h

/-- Witness for C6 at the all-success environment. -/
theorem pipeline_step_order_witness :
    (main_run ⟨"myapp", true, true, true, true, false⟩
        ⟨SpawnResult.exited 0, SpawnResult.exited 0, SpawnResult.exited 0,
          SpawnResult.exited 0, true, true, SpawnResult.exited 0,
          SpawnResult.exited 0⟩).1
      = [probeInv, scafInv ⟨"myapp", true, true, true, true, false⟩,
          Event.chdir "myapp", addInv, schemaInitInv, writeEv, genInv,
          shadcnInv] :=
  pipeline_step_order _ _ rfl

/-- Claim C7: a filesystem error on the fixed-content schema write is not
given a custom step message: it is propagated as an error return up through
`main` (the generic `errReturn` path, not a step's own `exit(1)`), aborting
the run with exit code 1 — no later pipeline step appears in the trace,
just as with a process failure. -/
theorem schema_write_error_generic_abort (cli : Cli) (env : Env) (p : Nat)
    (hp : env.probe = SpawnResult.exited p)
    (hsc : env.scaffold = SpawnResult.exited 0) (hcd : env.chdirOk = true)
    (had : env.addDeps = SpawnResult.exited 0)
    (hpi : env.prismaInit = SpawnResult.exited 0) (hw : env.writeOk = false) :
    main_run cli env
      = ([probeInv, scafInv cli, Event.chdir cli.project_name, addInv,
          schemaInitInv], Outcome.errReturn)
  ∧ exitCode (main_run cli env).2 = 1 := by
  have h := run_write_stop cli env p hp (by simp [hsc, stepOf]) hcd
    (by simp [had, stepOf]) (by simp [hpi, stepOf]) hw
  refine ⟨h, ?_⟩
  rw [h]
  rfl

/-- Witness for C7 at a concrete environment whose schema write fails. -/
theorem schema_write_error_generic_abort_witness :
    main_run ⟨"myapp", true, true, true, true, false⟩
        ⟨SpawnResult.exited 0, SpawnResult.exited 0, SpawnResult.exited 0,
          SpawnResult.exited 0, true, false, SpawnResult.exited 0,
          SpawnResult.exited 0⟩
      = ([probeInv, scafInv ⟨"myapp", true, true, true, true, false⟩,
          Event.chdir "myapp", addInv, schemaInitInv], Outcome.errReturn) :=
  (schema_write_error_generic_abort _ _ 0 rfl rfl rfl rfl rfl rfl).1

/-- C8 counterexample: the claim says the working directory is changed
exactly once per run, but in a run whose scaffolding invocation exits with
status 1 the run aborts before the directory change, so the count is 0, not
1. -/
theorem chdir_not_always_once :
    chdirCount (main_run ⟨"myapp", true, true, true, true, false⟩
        ⟨SpawnResult.exited 0, SpawnResult.exited 1, SpawnResult.exited 0,
          SpawnResult.exited 0, true, true, SpawnResult.exited 0,
          SpawnResult.exited 0⟩).1 = 0 :=
  rfl

/-- C8 amended: the working directory is changed at most once per run; when
it is changed, the change comes immediately after the scaffolding invocation
and immediately before the dependency-add invocation and no later event
changes it again; and every run that reaches the dependency-add invocation
changes it exactly once. -/
theorem chdir_at_most_once (cli : Cli) (env : Env) :
    (chdirCount (main_run cli env).1 = 0
      ∨ ∃ rest, (main_run cli env).1
            = probeInv :: scafInv cli :: Event.chdir cli.project_name
                :: addInv :: rest
          ∧ chdirCount rest = 0)
  ∧ (addInv ∈ (main_run cli env).1 → chdirCount (main_run cli env).1 = 1) := by
  obtain ⟨k, hk, -, htr, -⟩ := trace_shape cli env
  constructor
  · rcases hk with hk2 | hk4
    · left
      rw [htr]
      interval_cases k <;> rfl
    · right
      obtain ⟨m, hm⟩ := Nat.exists_eq_add_of_le hk4
      refine ⟨List.take m [schemaInitInv, writeEv, genInv, shadcnInv], ?_,
        chdirCount_tail m⟩
      rw [htr, hm, Nat.add_comm 4 m]
      rfl
  · intro hmem
    rcases hk with hk2 | hk4
    · rw [htr] at hmem
      exfalso
      interval_cases k
      · simp at hmem
      · rw [show (fullTrace cli).take 1 = [probeInv] from rfl] at hmem
        simp [probeInv, addInv] at hmem
      · rw [show (fullTrace cli).take 2 = [probeInv, scafInv cli] from rfl]
          at hmem
        simp [probeInv, scafInv, addInv, nextjs_args] at hmem
    · obtain ⟨m, hm⟩ := Nat.exists_eq_add_of_le hk4
      rw [htr, hm, Nat.add_comm 4 m]
      rw [show (fullTrace cli).take (m + 4)
          = probeInv :: scafInv cli :: Event.chdir cli.project_name :: addInv
              :: List.take m [schemaInitInv, writeEv, genInv, shadcnInv]
          from rfl]
      have ht : (List.take m [schemaInitInv, writeEv, genInv,
          shadcnInv]).countP isChdir = 0 := chdirCount_tail m
      simp [chdirCount, List.countP_cons, isChdir, probeInv, scafInv, addInv,
        ht]

/-- Witness for the second part of the amended C8: in the all-success run
the dependency-add invocation is reached and the directory change count is
exactly one. -/
theorem chdir_at_most_once_witness :
    chdirCount (main_run ⟨"myapp", true, true, true, true, false⟩
        ⟨SpawnResult.exited 0, SpawnResult.exited 0, SpawnResult.exited 0,
          SpawnResult.exited 0, true, true, SpawnResult.exited 0,
          SpawnResult.exited 0⟩).1 = 1 :=
  (chdir_at_most_once _ _).2 (by
    rw [run_all_ok ⟨"myapp", true, true, true, true, false⟩
      ⟨SpawnResult.exited 0, SpawnResult.exited 0, SpawnResult.exited 0,
        SpawnResult.exited 0, true, true, SpawnResult.exited 0,
        SpawnResult.exited 0⟩ 0 rfl rfl rfl rfl rfl rfl rfl rfl]
    simp [fullTrace, addInv])

/-- C3 counterexample: the claim says a non-zero exit status and a spawn
failure are treated identically for every external invocation, including
the initial tool-availability check.  But when the availability probe is
launched and exits with the non-zero status 7 (everything else succeeding),
the run does not terminate there: it completes with the success outcome and
exit code 0, not 1. -/
theorem probe_nonzero_status_not_fatal :
    (main_run ⟨"myapp", true, true, true, true, false⟩
        ⟨SpawnResult.exited 7, SpawnResult.exited 0, SpawnResult.exited 0,
          SpawnResult.exited 0, true, true, SpawnResult.exited 0,
          SpawnResult.exited 0⟩).2 = Outcome.success
  ∧ exitCode (main_run ⟨"myapp", true, true, true, true, false⟩
        ⟨SpawnResult.exited 7, SpawnResult.exited 0, SpawnResult.exited 0,
          SpawnResult.exited 0, true, true, SpawnResult.exited 0,
          SpawnResult.exited 0⟩).2 = 0 :=
  ⟨rfl, rfl⟩

/-- C3 amended: for each of the five pipeline invocations, a spawn failure
and a non-zero exit status both abort the run immediately with exit code 1
(the mechanism differs: a step-specific message plus `exit(1)` for a
non-zero status, the propagated-error path for a spawn failure, but the
control-flow consequence is the same and no later step executes); for the
initial tool-availability check, only a spawn failure aborts (with exit
code 1, before any other invocation), while a launched probe continues the
run regardless of its exit status. -/
theorem launch_vs_status_failure (cli : Cli) (env : Env) :
    (env.probe = SpawnResult.failed →
        main_run cli env = ([probeInv], Outcome.exitFail)
      ∧ exitCode (main_run cli env).2 = 1)
  ∧ (∀ p, env.probe = SpawnResult.exited p →
        scafInv cli ∈ (main_run cli env).1)
  ∧ (∀ p, env.probe = SpawnResult.exited p →
      stepOf env.scaffold ≠ StepExit.ok →
        main_run cli env
          = ([probeInv, scafInv cli], outcomeOf (stepOf env.scaffold))
      ∧ exitCode (main_run cli env).2 = 1)
  ∧ (∀ p, env.probe = SpawnResult.exited p →
      stepOf env.scaffold = StepExit.ok → env.chdirOk = true →
      stepOf env.addDeps ≠ StepExit.ok →
        main_run cli env
          = ([probeInv, scafInv cli, Event.chdir cli.project_name, addInv],
              outcomeOf (stepOf env.addDeps))
      ∧ exitCode (main_run cli env).2 = 1)
  ∧ (∀ p, env.probe = SpawnResult.exited p →
      stepOf env.scaffold = StepExit.ok → env.chdirOk = true →
      stepOf env.addDeps = StepExit.ok →
      stepOf env.prismaInit ≠ StepExit.ok →
        main_run cli env
          = ([probeInv, scafInv cli, Event.chdir cli.project_name, addInv,
              schemaInitInv], outcomeOf (stepOf env.prismaInit))
      ∧ exitCode (main_run cli env).2 = 1)
  ∧ (∀ p, env.probe = SpawnResult.exited p →
      stepOf env.scaffold = StepExit.ok → env.chdirOk = true →
      stepOf env.addDeps = StepExit.ok →
      stepOf env.prismaInit = StepExit.ok → env.writeOk = true →
      stepOf env.generate ≠ StepExit.ok →
        main_run cli env
          = ([probeInv, scafInv cli, Event.chdir cli.project_name, addInv,
              schemaInitInv, writeEv, genInv],
              outcomeOf (stepOf env.generate))
      ∧ exitCode (main_run cli env).2 = 1)
  ∧ (∀ p, env.probe = SpawnResult.exited p →
      stepOf env.scaffold = StepExit.ok → env.chdirOk = true →
      stepOf env.addDeps = StepExit.ok →
      stepOf env.prismaInit = StepExit.ok → env.writeOk = true →
      stepOf env.generate = StepExit.ok →
      stepOf env.shadcn ≠ StepExit.ok →
        main_run cli env = (fullTrace cli, outcomeOf (stepOf env.shadcn))
      ∧ exitCode (main_run cli env).2 = 1) := by
  refine ⟨?_, ?_, ?_, ?_, ?_, ?_, ?_⟩
  · intro h
    refine ⟨run_probe_failed cli env h, ?_⟩
    rw [run_probe_failed cli env h]
    rfl
  · intro p hp
    exact scaf_mem cli env p hp
  · intro p hp hne
    have h := run_scaffold_stop cli env p hp hne
    refine ⟨h, ?_⟩
    rw [h]
    exact exitCode_outcomeOf hne
  · intro p hp hsc hcd hne
    have h := run_addDeps_stop cli env p hp hsc hcd hne
    refine ⟨h, ?_⟩
    rw [h]
    exact exitCode_outcomeOf hne
  · intro p hp hsc hcd had hne
    have h := run_prismaInit_stop cli env p hp hsc hcd had hne
    refine ⟨h, ?_⟩
    rw [h]
    exact exitCode_outcomeOf hne
  · intro p hp hsc hcd had hpi hw hne
    have h := run_generate_stop cli env p hp hsc hcd had hpi hw hne
    refine ⟨h, ?_⟩
    rw [h]
    exact exitCode_outcomeOf hne
  · intro p hp hsc hcd had hpi hw hg hne
    have h := run_shadcn_stop cli env p hp hsc hcd had hpi hw hg hne
    refine ⟨h, ?_⟩
    rw [h]
    exact exitCode_outcomeOf hne

/-- Witness for the amended C3 at a concrete environment whose scaffolding
spawn fails: the run aborts right there via the propagated-error path with
exit code 1. -/
theorem launch_vs_status_failure_witness :
    main_run ⟨"myapp", true, true, true, true, false⟩
        ⟨SpawnResult.exited 0, SpawnResult.failed, SpawnResult.exited 0,
          SpawnResult.exited 0, true, true, SpawnResult.exited 0,
          SpawnResult.exited 0⟩
      = ([probeInv, scafInv ⟨"myapp", true, true, true, true, false⟩],
          Outcome.errReturn)
  ∧ exitCode (main_run ⟨"myapp", true, true, true, true, false⟩
        ⟨SpawnResult.exited 0, SpawnResult.failed, SpawnResult.exited 0,
          SpawnResult.exited 0, true, true, SpawnResult.exited 0,
          SpawnResult.exited 0⟩).2 = 1 :=
  (launch_vs_status_failure _ _).2.2.1 0 rfl (by decide)

end NextFast
